import Mathlib

/- Shallow embedding of the Cand legacy compiler front end, from
   src/Candi_Compiler/parser.hpp and
   src/Candi_Compiler/global_dependencies/libcsl.hpp.

   Tokens are modelled by their kind and literal text.  Iterator ranges into
   the token vector are modelled by the full token list together with absolute
   positions b (begin) and e (end), because the C++ routines occasionally read
   the underlying vector at positions at or beyond the range end; reads beyond
   the vector produce a default eof token.  Iterator comparisons of the form
   it.next(k) == end are modelled as e less or equal b + k, which agrees with
   the source whenever the position stays inside the range and models a
   clamping cursor past it.

   The helper headers token.hpp, ast_node.hpp, parser_utils.hpp and
   syntax_traits.hpp are not present in the repository snapshot; the entities
   they declare (TokenCursor, operator traits, the scope finding utilities)
   are modelled from the specification, as marked on each definition.

   The deep recursion of build_statement is not structural; every recursive
   definition therefore threads an explicit recursion budget, started at a
   value that dominates the recursion depth (each recursive call of
   build_statement strictly decreases the lexicographic measure (e, 2e - b),
   so the depth is below 2e + 2).  The budget exhaustion branch is never
   reached on the evaluations below. -/

namespace Caoco

/-- Token kinds of the tokenizer restricted to the kinds exercised by
parser.hpp.  Names mirror tk_enum of the source. -/
inductive TkType where
  | number_literal | real_literal | string_literal | unsigned_literal
  | octet_literal | bit_literal | none_literal_ | alnumus
  | open_scope | close_scope | open_list | close_list | open_frame | close_frame
  | eos | eof | comma | ellipsis
  | simple_assignment | addition_assignment | subtraction_assignment
  | multiplication_assignment | division_assignment | remainder_assignment
  | logical_or | logical_and
  | equal_to | not_equal | less_than | less_equal | greater_than | greater_equal
  | addition | subtraction | multiplication | division | remainder
  | negation | period
  | var_ | type_ | func_ | class_ | return_
  | if_ | elif_ | else_ | while_ | for_ | on_ | break_ | continue_ | print_
  | atype_ | avalue_ | aidentity_ | aint_ | auint_ | areal_ | aoctet_ | abit_
  | apointer_ | aarray_
  deriving DecidableEq, Repr

/-- A token: kind and literal text (line and column are not observed by the
parsing logic modelled here). -/
structure Tk where
  ty : TkType
  lit : String
  deriving DecidableEq, Repr

/-- AST node kinds.  Kinds that mirror a token kind are collected under the
tk_ constructor; the remaining constructors are the compound kinds of
ast_node.hpp that parser.hpp produces. -/
inductive NodeType where
  | invalid_ | none_
  | pragmatic_block_ | functional_block_ | expression_
  | function_call_ | arguments_
  | type_constraints_ | type_definition_
  | anon_variable_definition_ | anon_variable_definition_assingment_
  | constrained_variable_definition_ | variable_assignment_
  | return_
  | tk_ (t : TkType)
  deriving DecidableEq, Repr

/-- AST node: kind, the token range it was constructed from (copied out as a
token list), and the ordered children. -/
inductive Node where
  | mk (ty : NodeType) (toks : List Tk) (children : List Node)

def Node.ty : Node → NodeType
  | .mk t _ _ => t

def Node.toks : Node → List Tk
  | .mk _ tk _ => tk

def Node.children : Node → List Node
  | .mk _ _ cs => cs

/-- push_back of ast_node.hpp: append a child. -/
def Node.pushB : Node → Node → Node
  | .mk t tk cs, c => .mk t tk (cs ++ [c])

/-- push_front of ast_node.hpp: prepend a child. -/
def Node.pushF : Node → Node → Node
  | .mk t tk cs, c => .mk t tk (c :: cs)

instance : Inhabited Node := ⟨.mk .none_ [] []⟩

/-- front of ast_node.hpp: the first child (default node when none, where the
C++ would be undefined). -/
def Node.front : Node → Node
  | .mk _ _ cs => cs.headD (.mk .none_ [] [])

/-- Read the token vector at an absolute position; positions beyond the
vector give a default eof token. -/
def tokenAt (all : List Tk) (i : Nat) : Tk :=
  all.getD i ⟨.eof, ""⟩

/-- Copy of the token range from position b inclusive to e exclusive,
matching the two iterator constructor of ast_node.hpp. -/
def sliceToks (all : List Tk) (b e : Nat) : List Tk :=
  (all.drop b).take (e - b)

/-- to_statement of the token cursor: a leaf node whose kind mirrors the
token kind at the given position. -/
def to_statement (all : List Tk) (i : Nat) : Node :=
  .mk (.tk_ (tokenAt all i).ty) (sliceToks all i (i + 1)) []

/-- Operator classification used by TokenCursor.operation. -/
inductive Operation where
  | unary_ | binary_ | operand_
  deriving DecidableEq, Repr

/-- Operator associativity used by TokenCursor.associativity. -/
inductive Assoc where
  | left_ | right_
  deriving DecidableEq, Repr

/-- Modelled from the spec: syntax_traits.hpp is absent from the snapshot.
Section 4.3 lists the unary prefix family as negation, minus and plus. -/
def operationOf : TkType → Operation
  | .negation | .subtraction | .addition => .unary_
  | .simple_assignment | .addition_assignment | .subtraction_assignment
  | .multiplication_assignment | .division_assignment | .remainder_assignment
  | .logical_or | .logical_and
  | .equal_to | .not_equal | .less_than | .less_equal | .greater_than
  | .greater_equal
  | .multiplication | .division | .remainder | .period => .binary_
  | _ => .operand_

/-- Modelled from the spec: the precedence table of section 4.3, lowest to
highest: assignment family, logical, equality, relational, additive,
multiplicative, unary negation, member access.  Plus and minus carry their
binary (additive) precedence since a token carries a single value.
Non-operator tokens get the lowest value. -/
def importanceOf : TkType → Nat
  | .simple_assignment | .addition_assignment | .subtraction_assignment
  | .multiplication_assignment | .division_assignment
  | .remainder_assignment => 1
  | .logical_or | .logical_and => 2
  | .equal_to | .not_equal => 3
  | .less_than | .less_equal | .greater_than | .greater_equal => 4
  | .addition | .subtraction => 5
  | .multiplication | .division | .remainder => 6
  | .negation => 7
  | .period => 8
  | _ => 0

/-- Modelled from the spec: the assignment family is right associative and
unary operators group right to left; every other operator and every
non-operator token is left associative. -/
def assocOf : TkType → Assoc
  | .simple_assignment | .addition_assignment | .subtraction_assignment
  | .multiplication_assignment | .division_assignment
  | .remainder_assignment => .right_
  | .negation => .right_
  | _ => .left_

/-- Result of the scope finding utilities of parser_utils.hpp: validity, the
position of the opening token and the position one past the closing token.
contained_begin is sb + 1 and contained_end is se - 1. -/
structure ScopeResult where
  valid : Bool
  sb : Nat
  se : Nat
  deriving DecidableEq, Repr

/-- is_empty of the scope result: the contained range is empty. -/
def isEmptyScope (r : ScopeResult) : Bool :=
  r.sb + 2 == r.se

/-- Depth contribution of a token for bracket balancing: the three opening
kinds count plus one, the three closing kinds count minus one. -/
def bracketDelta : TkType → Int
  | .open_scope | .open_list | .open_frame => 1
  | .close_scope | .close_list | .close_frame => -1
  | _ => 0

/-- Modelled from the spec: scan loop of find_scope for parentheses.  The
budget argument counts the remaining positions up to e. -/
def findScopeGo (all : List Tk) (b : Nat) : Nat → Nat → Nat → ScopeResult
  | 0, _, _ => ⟨false, b, b⟩
  | gas + 1, i, depth =>
    match (tokenAt all i).ty with
    | .close_scope =>
      if depth = 0 then ⟨true, b, i + 1⟩
      else findScopeGo all b gas (i + 1) (depth - 1)
    | .open_scope => findScopeGo all b gas (i + 1) (depth + 1)
    | _ => findScopeGo all b gas (i + 1) depth

/-- Modelled from the spec: find_scope(begin, end) of parser_utils.hpp
returns the half open token range enclosed by the first balanced pair of
parentheses starting at begin; invalid when begin is not an opening
parenthesis or no balanced closing one exists before e. -/
def find_scope (all : List Tk) (b e : Nat) : ScopeResult :=
  if (tokenAt all b).ty = .open_scope then
    findScopeGo all b (e - (b + 1)) (b + 1) 0
  else ⟨false, b, b⟩

/-- Modelled from the spec: scan loop of find_statement.  Depth tracks all
three bracket families; the terminator matches at depth zero, where the depth
is taken after applying the bracket contribution of the current token, so
that a closing bracket terminator matches the opening token at b. -/
def findStmtGo (all : List Tk) (b e : Nat) (term : TkType) :
    Nat → Nat → Int → ScopeResult
  | 0, _, _ => ⟨false, b, e⟩
  | gas + 1, i, depth =>
    let t := (tokenAt all i).ty
    let depth2 := depth + bracketDelta t
    if t = term ∧ depth2 = 0 then ⟨true, b, i + 1⟩
    else findStmtGo all b e term gas (i + 1) depth2

/-- Modelled from the spec: find_statement(open_kind, terminator, begin, end)
finds a range starting with open_kind at begin that ends at the first
terminator at depth zero, skipping over balanced bracket interiors.  When the
leading token is itself an opening bracket it opens the depth count. -/
def find_statement (opn term : TkType) (all : List Tk) (b e : Nat) :
    ScopeResult :=
  let depth0 : Int := if bracketDelta (tokenAt all b).ty = 1 then 1 else 0
  let r := findStmtGo all b e term (e - (b + 1)) (b + 1) depth0
  if (tokenAt all b).ty = opn then r else { r with valid := false }

/-- Modelled from the spec: find_open_statement is find_statement except that
repeated occurrences of the opening kind inside the range are permitted; the
scan modelled here never rejects a repeated opening kind, so the two
coincide. -/
def find_open_statement (opn term : TkType) (all : List Tk) (b e : Nat) :
    ScopeResult :=
  find_statement opn term all b e

/-- find_forward of parser_utils.hpp: the tokens at consecutive positions
from b have exactly the given kinds.  The C++ overload used by parser.hpp
takes only an iterator, so no end bound is applied (reads stay inside the
vector through tokenAt). -/
def find_forward (all : List Tk) : Nat → List TkType → Bool
  | _, [] => true
  | b, k :: ks => (tokenAt all b).ty == k && find_forward all (b + 1) ks

/-- build_statement of parser.hpp (lines 81 to 332), with an explicit
recursion budget.  Thrown C++ exceptions are modelled by the error case of
Except; the C++ function never returns an empty optional, so the ok case
carries the built node.  Range begin b, range end e; lastPass is the
unfinished binary operation of a continuation pass. -/
def buildStatementF (all : List Tk) :
    Nat → Nat → Nat → Option Node → Except String Node
  | 0, _, _, _ => .error "recursion budget exhausted"
  | fuel + 1, b, e, none =>
    if operationOf (tokenAt all b).ty = .unary_ then
      -- fresh start, unary prefix (lines 87 to 107)
      let unaryOp := to_statement all b
      if e ≤ b + 2 then
        .ok (unaryOp.pushB (to_statement all (b + 1)))
      else if importanceOf (tokenAt all b).ty
          < importanceOf (tokenAt all (b + 2)).ty then do
        let nextOperation := (to_statement all (b + 2)).pushB
          (to_statement all (b + 1))
        let rest ← buildStatementF all fuel (b + 2) e (some nextOperation)
        .ok (unaryOp.pushB rest)
      else
        let nextPass := (to_statement all (b + 2)).pushB
          (unaryOp.pushB (to_statement all (b + 1)))
        buildStatementF all fuel (b + 2) e (some nextPass)
    else if (tokenAt all b).ty = .open_scope then
      -- fresh start, open scope (lines 108 to 126)
      let scope := find_scope all b e
      if !scope.valid then .error "Mismatched parenthesis."
      else if isEmptyScope scope then .error "Empty parenthesis."
      else if scope.se = e then
        buildStatementF all fuel (scope.sb + 1) (scope.se - 1) none
      else do
        let inner ← buildStatementF all fuel (scope.sb + 1) (scope.se - 1) none
        buildStatementF all fuel scope.se e
          (some ((to_statement all scope.se).pushB inner))
    else
      -- fresh start, singular operand (lines 127 to 157)
      if e ≤ b + 1 then .ok (to_statement all b)
      else if (tokenAt all (b + 1)).ty = .open_scope then
        let argScope := find_scope all (b + 1) e
        if !argScope.valid then
          .error "Mismatched parenthesis in arguments to function call operator."
        else
          let fc := Node.mk .function_call_ (sliceToks all b argScope.se)
            [to_statement all b,
             Node.mk .arguments_
               (sliceToks all (argScope.sb + 1) (argScope.se - 1)) []]
          if argScope.se = e then .ok fc
          else buildStatementF all fuel argScope.se e
            (some ((to_statement all argScope.se).pushB fc))
      else
        buildStatementF all fuel (b + 1) e
          (some ((to_statement all (b + 1)).pushB (to_statement all b)))
  | fuel + 1, b, e, some lp =>
    -- continuation pass: b is at a binary operator (lines 159 to 331)
    if e ≤ b + 1 ∨ (tokenAt all (b + 1)).ty = .eof then
      .error "End of expression after binary operator. Operator must be followed by operand."
    else do
      -- input validation (lines 168 to 186)
      if (tokenAt all (b + 1)).ty ≠ .number_literal
          ∧ (tokenAt all (b + 1)).ty ≠ .alnumus then
        if operationOf (tokenAt all (b + 1)).ty = .unary_ then
          if e ≤ b + 2 then
            throw "End of expression after unary operator. Operator must be followed by operand."
          else pure ()
        else if (tokenAt all (b + 1)).ty = .open_scope then
          let scope := find_scope all (b + 1) e
          if !scope.valid then throw "Mismatched parenthesis."
          else if isEmptyScope scope then throw "Empty parenthesis."
          else pure ()
        else
          throw "Invalid right hand side operand. Operator must be followed by operand."
      else pure ()
      -- next operator position (lines 193 to 203)
      let nOp0 :=
        if operationOf (tokenAt all (b + 1)).ty = .unary_ then b + 3
        else if (tokenAt all (b + 1)).ty = .open_scope then
          (find_scope all (b + 1) e).se
        else b + 2
      -- function call special case (lines 206 to 224)
      let callCase ←
        if (tokenAt all nOp0).ty = .open_scope then
          let argScope := find_scope all nOp0 e
          if !argScope.valid then
            throw "Mismatched parenthesis in arguments to function call operator."
          else
            pure (argScope.se,
              some (Node.mk .function_call_ (sliceToks all b argScope.se)
                [to_statement all (b + 1),
                 Node.mk .arguments_
                   (sliceToks all (argScope.sb + 1) (argScope.se - 1)) []]))
        else pure (nOp0, (none : Option Node))
      let nOp := callCase.1
      let ofc := callCase.2
      if e ≤ nOp then
        -- last pass: complete by associativity (lines 227 to 265)
        if assocOf (tokenAt all b).ty = .right_ then
          if operationOf (tokenAt all (b + 1)).ty = .unary_ then
            .ok (lp.pushF ((to_statement all (b + 1)).pushB
              (to_statement all (b + 2))))
          else if (tokenAt all (b + 1)).ty = .open_scope then do
            -- the source reads the scope at the operator position here
            let scope := find_scope all b e
            let inner ← buildStatementF all fuel (scope.sb + 1)
              (scope.se - 1) none
            .ok (lp.pushF inner)
          else
            match ofc with
            | some fc => .ok (lp.pushF fc)
            | none => .ok (lp.pushF (to_statement all (b + 1)))
        else
          if operationOf (tokenAt all (b + 1)).ty = .unary_ then
            .ok (lp.pushB ((to_statement all (b + 1)).pushB
              (to_statement all (b + 2))))
          else if (tokenAt all (b + 1)).ty = .open_scope then do
            let scope := find_scope all (b + 1) e
            let inner ← buildStatementF all fuel (scope.sb + 1)
              (scope.se - 1) none
            .ok (lp.pushB inner)
          else
            match ofc with
            | some fc => .ok (lp.pushB fc)
            | none => .ok (lp.pushB (to_statement all (b + 1)))
      else
        if importanceOf (tokenAt all b).ty
            < importanceOf (tokenAt all nOp).ty then
          -- the following operator is more important (lines 269 to 279)
          if assocOf (tokenAt all b).ty = .right_ then do
            let rest ← buildStatementF all fuel (b + 1) e none
            .ok (lp.pushF rest)
          else do
            let rest ← buildStatementF all fuel (b + 1) e none
            .ok (lp.pushB rest)
        else do
          -- this operator finishes; it becomes the lhs of the next operator
          -- (lines 280 to 329)
          let lhs ←
            if assocOf (tokenAt all b).ty = .right_ then
              if (tokenAt all (b + 1)).ty = .open_scope then do
                let scope := find_scope all (b + 1) e
                let inner ← buildStatementF all fuel (scope.sb + 1)
                  (scope.se - 1) none
                pure (Node.mk lp.ty [] [inner, lp.front])
              else if operationOf (tokenAt all (b + 1)).ty = .unary_ then
                pure (Node.mk lp.ty []
                  [(to_statement all (b + 1)).pushB (to_statement all (b + 2)),
                   lp.front])
              else
                pure (Node.mk lp.ty [] [to_statement all (b + 1), lp.front])
            else
              if (tokenAt all (b + 1)).ty = .open_scope then do
                let scope := find_scope all (b + 1) e
                let inner ← buildStatementF all fuel (scope.sb + 1)
                  (scope.se - 1) none
                pure (Node.mk lp.ty [] [lp.front, inner])
              else if operationOf (tokenAt all (b + 1)).ty = .unary_ then
                pure (Node.mk lp.ty []
                  [lp.front,
                   (to_statement all (b + 1)).pushB (to_statement all (b + 2))])
              else
                match ofc with
                | some fc => pure (Node.mk lp.ty [] [lp.front, fc])
                | none =>
                  pure (Node.mk lp.ty [] [lp.front, to_statement all (b + 1)])
          buildStatementF all fuel nOp e (some ((to_statement all nOp).pushB lhs))

/-- build_statement entry point: the recursion budget dominates the actual
recursion depth (bounded by 2e + 2, see the header comment). -/
def build_statement (all : List Tk) (b e : Nat) (lastPass : Option Node) :
    Except String Node :=
  buildStatementF all (2 * (all.length + e) + 16) b e lastPass

/-- ParsingResult of parser.hpp: cursor after the consumed tokens, the built
node, validity, and the error stream (modelled as the list of messages
written to it). -/
structure ParsingResult where
  it : Nat
  node : Node
  valid : Bool
  errs : List String

/-- make_success of ParsingProcess. -/
def mkSuccess (n : Node) (i : Nat) : ParsingResult :=
  ⟨i, n, true, []⟩

/-- make_error of ParsingProcess: invalid node kind, valid false, populated
error stream. -/
def mkError (i : Nat) (msg : String) : ParsingResult :=
  ⟨i, .mk .invalid_ [] [], false, [msg]⟩

/-- make_pass of ParsingProcess: none node kind, valid false, cursor kept. -/
def mkPass (i : Nat) : ParsingResult :=
  ⟨i, .mk .none_ [] [], false, []⟩

/-- ParseValueExpression of parser.hpp (lines 939 to 955): delimit the value
statement up to the end of statement token, run build_statement on the
contained range, and convert a thrown exception into a returned error. -/
def ParseValueExpression (all : List Tk) (b e : Nat) : ParsingResult :=
  match build_statement all b
      ((find_open_statement (tokenAt all b).ty .eos all b e).se - 1) none with
  | .error _ => mkError b "ParseValueExpression: Invalid statement."
  | .ok n => mkSuccess n (find_open_statement (tokenAt all b).ty .eos all b e).se

/-- ParseDirectiveVar of parser.hpp (lines 722 to 786). -/
def ParseDirectiveVar (all : List Tk) (b e : Nat) : ParsingResult :=
  if find_forward all b [.var_, .alnumus, .eos] then
    mkSuccess (Node.mk .anon_variable_definition_ (sliceToks all b (b + 3))
      [Node.mk (.tk_ .alnumus) (sliceToks all (b + 1) (b + 2)) []]) (b + 3)
  else if find_forward all b [.var_, .alnumus, .simple_assignment] then
    let expr := ParseValueExpression all (b + 1) e
    if !expr.valid then
      mkError (b + 1)
        "ParseDirectiveVar: Invalid var statement format. Assingment expression is invalid."
    else
      mkSuccess
        (Node.mk .anon_variable_definition_assingment_
          (sliceToks all b (expr.it - 1))
          [Node.mk (.tk_ .alnumus) (sliceToks all (b + 1) (b + 2)) [],
           expr.node]) expr.it
  else if find_forward all b [.var_, .open_frame] then
    let frame := find_statement .open_frame .close_frame all (b + 1) e
    if find_forward all frame.se [.alnumus] then
      if (tokenAt all (frame.se + 1)).ty = .eos then
        mkSuccess
          (Node.mk .constrained_variable_definition_
            (sliceToks all b (frame.se + 1))
            [Node.mk .type_constraints_
               (sliceToks all (frame.sb + 1) (frame.se - 1)) [],
             Node.mk (.tk_ .alnumus)
               (sliceToks all frame.se (frame.se + 1)) []]) (frame.se + 2)
      else if (tokenAt all (frame.se + 1)).ty = .simple_assignment then
        let expr := ParseValueExpression all (frame.se + 2) e
        if !expr.valid then
          mkError (b + 3) "ParseDirectiveVar: Invalid var statement format."
        else
          mkSuccess
            (Node.mk .constrained_variable_definition_
              (sliceToks all b (expr.it - 1))
              [Node.mk .type_constraints_
                 (sliceToks all (frame.sb + 1) (frame.se - 1)) [],
               Node.mk (.tk_ .alnumus)
                 (sliceToks all frame.se (frame.se + 1)) [],
               Node.mk (.tk_ .simple_assignment)
                 (sliceToks all (frame.se + 1) (frame.se + 2)) [],
               expr.node]) expr.it
      else mkError frame.se "ParseDirectiveVar: Invalid var statement format."
    else mkError frame.se "ParseDirectiveVar: Invalid var statement format."
  else
    mkError b
      "ParseDirectiveVar: Invalid var statement format. The var directive was not followed by an identity or type constraint."

/-- ParseDirectiveReturn of parser.hpp (lines 927 to 938).  The contained
build_statement call is not guarded by the routine, so a thrown exception
escapes; this is modelled by the error case of Except. -/
def ParseDirectiveReturn (all : List Tk) (b e : Nat) :
    Except String ParsingResult := do
  let s := find_statement .return_ .eos all b e
  if !s.valid then
    pure (mkError s.se "ParseDirectiveReturn: Invalid return statement.")
  else do
    let tree ← build_statement all (s.sb + 1) (s.se - 1) none
    pure (mkSuccess
      (Node.mk .return_ (sliceToks all b (s.se - 1))
        [Node.mk .expression_ (sliceToks all (s.sb + 1) (s.se - 1)) [tree]])
      s.se)

/-- ParseIdentifierStatement of parser.hpp (lines 1089 to 1122): only the
variable assignment form alnumus, simple assignment, number literal, end of
statement is recognised. -/
def ParseIdentifierStatement (all : List Tk) (b e : Nat) : ParsingResult :=
  if (tokenAt all b).ty ≠ .alnumus then
    mkError b "ParseIdentifierStatement: Expected an alnumus."
  else if (tokenAt all (b + 1)).ty ≠ .simple_assignment then
    mkError (b + 1) "ParseIdentifierStatement: Expected a simple assignment token."
  else if (tokenAt all (b + 2)).ty ≠ .number_literal then
    mkError (b + 2) "ParseIdentifierStatement: Expected an alnumus."
  else if (tokenAt all (b + 3)).ty ≠ .eos then
    mkError (b + 3) "ParseIdentifierStatement: Expected an eos."
  else
    mkSuccess
      (Node.mk .variable_assignment_ (sliceToks all b (b + 3))
        [Node.mk (.tk_ .alnumus) (sliceToks all b (b + 1)) [],
         Node.mk (.tk_ .simple_assignment) (sliceToks all (b + 1) (b + 2)) [],
         Node.mk (.tk_ .number_literal) (sliceToks all (b + 2) (b + 3)) []])
      (b + 4)

/-- Statement loop of ParseFunctionalBlock (lines 1027 to 1086).  A sub
statement that fails makes the surrounding lambda throw, modelled by the
error case; a leading token outside alnumus, return and var returns an error
result.  The budget argument bounds the number of statements; the cursor
advances on every parsed statement, so the entry budget below is never
exhausted. -/
def ParseFunctionalBlockGo (all : List Tk) (b e : Nat) :
    Nat → Nat → List Node → Except String ParsingResult
  | 0, _, _ => .error "recursion budget exhausted"
  | fuel + 1, it, acc =>
    if it < e ∧ (tokenAt all it).ty ≠ .eof then
      if (tokenAt all it).ty = .alnumus then
        let s := find_open_statement .alnumus .eos all it e
        if !s.valid then .error "ParsePragmaticBlock: Invalid statement scope."
        else
          let r := ParseIdentifierStatement all s.sb s.se
          if !r.valid then .error "ParsePragmaticBlock: Invalid statement."
          else ParseFunctionalBlockGo all b e fuel r.it (acc ++ [r.node])
      else if (tokenAt all it).ty = .return_ then
        let s := find_statement .return_ .eos all it e
        if !s.valid then .error "ParsePragmaticBlock: Invalid statement scope."
        else do
          let r ← ParseDirectiveReturn all s.sb s.se
          if !r.valid then
            .error ("ParsePragmaticBlock: Invalid statement."
              ++ String.join r.errs)
          else ParseFunctionalBlockGo all b e fuel r.it (acc ++ [r.node])
      else if (tokenAt all it).ty = .var_ then
        let s := find_statement .var_ .eos all it e
        if !s.valid then .error "ParsePragmaticBlock: Invalid statement scope."
        else
          let r := ParseDirectiveVar all s.sb s.se
          if !r.valid then
            .error ("ParsePragmaticBlock: Invalid statement."
              ++ String.join r.errs)
          else ParseFunctionalBlockGo all b e fuel r.it (acc ++ [r.node])
      else .ok (mkError it "ParsePragmaticBlock: Invalid statement.")
    else .ok (mkSuccess (Node.mk .functional_block_ (sliceToks all b e) acc) it)

/-- ParseFunctionalBlock of parser.hpp (lines 1027 to 1086). -/
def ParseFunctionalBlock (all : List Tk) (b e : Nat) :
    Except String ParsingResult :=
  ParseFunctionalBlockGo all b e (e + all.length + 8) b []

/-- The token kinds at consecutive positions from b match and the whole
pattern fits inside the range ending at e, as scan_tokens_pack checks. -/
def matchKindsE (all : List Tk) (b e : Nat) (ks : List TkType) : Bool :=
  decide (b + ks.length ≤ e) && find_forward all b ks

/-- The constrained int mask of ParseCsoInt (lines 405 to 408): aint, open
frame, optional minus, number, ellipsis, optional minus, number, close
frame.  The two optional positions give four concrete alternatives. -/
def intMaskMatch (all : List Tk) (b e : Nat) : Bool :=
  matchKindsE all b e [.aint_, .open_frame, .subtraction, .number_literal,
    .ellipsis, .subtraction, .number_literal, .close_frame]
  || matchKindsE all b e [.aint_, .open_frame, .subtraction, .number_literal,
    .ellipsis, .number_literal, .close_frame]
  || matchKindsE all b e [.aint_, .open_frame, .number_literal, .ellipsis,
    .subtraction, .number_literal, .close_frame]
  || matchKindsE all b e [.aint_, .open_frame, .number_literal, .ellipsis,
    .number_literal, .close_frame]

/-- ParseCsoInt of parser.hpp (lines 402 to 453). -/
def ParseCsoInt (all : List Tk) (b e : Nat) : ParsingResult :=
  if intMaskMatch all b e then
    if (tokenAt all (b + 2)).ty = .subtraction then
      let lo := (to_statement all (b + 2)).pushB (to_statement all (b + 3))
      if (tokenAt all (b + 5)).ty = .subtraction then
        mkSuccess (Node.mk (.tk_ .aint_) []
          [lo, (to_statement all (b + 5)).pushB (to_statement all (b + 6))])
          (b + 8)
      else
        mkSuccess (Node.mk (.tk_ .aint_) [] [lo, to_statement all (b + 5)])
          (b + 7)
    else
      let lo := to_statement all (b + 2)
      if (tokenAt all (b + 4)).ty = .subtraction then
        mkSuccess (Node.mk (.tk_ .aint_) []
          [lo, (to_statement all (b + 4)).pushB (to_statement all (b + 5))])
          (b + 7)
      else
        mkSuccess (Node.mk (.tk_ .aint_) [] [lo, to_statement all (b + 4)])
          (b + 6)
  else
    mkSuccess (Node.mk (.tk_ .aint_) (sliceToks all b (b + 1)) []) (b + 1)

/-- The constrained uint mask of ParseCsoUint (lines 457 to 459): aint,
open frame, number, ellipsis, number, close frame, with no optional minus
positions. -/
def uintMaskMatch (all : List Tk) (b e : Nat) : Bool :=
  matchKindsE all b e [.auint_, .open_frame, .number_literal, .ellipsis,
    .number_literal, .close_frame]

/-- ParseCsoUint of parser.hpp (lines 454 to 471). -/
def ParseCsoUint (all : List Tk) (b e : Nat) : ParsingResult :=
  if uintMaskMatch all b e then
    mkSuccess (Node.mk (.tk_ .auint_) []
      [to_statement all (b + 2), to_statement all (b + 4)]) (b + 6)
  else
    mkSuccess (Node.mk (.tk_ .auint_) [] []) (b + 1)

/-- ParseCandiSpecialObject of parser.hpp (lines 553 to 587) together with
the inlined body of ParseCsoPointer for the apointer case (the two are
mutually recursive in the source; the recursion is threaded through the
budget argument).  Thrown exceptions are the error case of Except. -/
def ParseCandiSpecialObjectF (all : List Tk) :
    Nat → Nat → Nat → Except String ParsingResult
  | 0, _, _ => .error "recursion budget exhausted"
  | fuel + 1, b, e =>
    match (tokenAt all b).ty with
    | .atype_ =>
      .ok (mkSuccess (Node.mk (.tk_ .atype_) (sliceToks all b (b + 1)) [])
        (b + 1))
    | .avalue_ =>
      .ok (mkSuccess (Node.mk (.tk_ .avalue_) (sliceToks all b (b + 1)) [])
        (b + 1))
    | .aidentity_ =>
      .ok (mkSuccess (Node.mk (.tk_ .aidentity_) (sliceToks all b (b + 1)) [])
        (b + 1))
    | .aint_ => .ok (ParseCsoInt all b e)
    | .auint_ => .ok (ParseCsoUint all b e)
    | .areal_ =>
      .ok (mkSuccess (Node.mk (.tk_ .areal_) (sliceToks all b (b + 1)) [])
        (b + 1))
    | .aoctet_ =>
      .ok (mkSuccess (Node.mk (.tk_ .aoctet_) (sliceToks all b (b + 1)) [])
        (b + 1))
    | .abit_ =>
      .ok (mkSuccess (Node.mk (.tk_ .abit_) (sliceToks all b (b + 1)) [])
        (b + 1))
    | .apointer_ =>
      if find_forward all b [.apointer_, .open_frame, .alnumus, .close_frame]
          then
        .ok (mkSuccess
          ((Node.mk (.tk_ .apointer_) [] []).pushB (to_statement all (b + 2)))
          (b + 4))
      else if find_forward all b [.apointer_, .open_frame] then do
        let r ← ParseCandiSpecialObjectF all fuel (b + 2) e
        if r.valid then
          .ok (mkSuccess
            ((Node.mk (.tk_ .apointer_) [] []).pushB r.node) (r.it + 1))
        else
          .error "ParseCsoPointer: Invalid CSO Type in the pointer type constraint."
      else .error "ParseCsoPointer: Pointer must be contrained to a type."
    | _ => .ok (mkError b "ParseCandiSpecialObject: Invalid CSO.")

/-- ParseCandiSpecialObject entry point. -/
def ParseCandiSpecialObject (all : List Tk) (b e : Nat) :
    Except String ParsingResult :=
  ParseCandiSpecialObjectF all (all.length + 2) b e

/-- ParseCsoPointer of parser.hpp (lines 484 to 508): the same body as the
apointer case above, as a routine of its own.  On an unconstrained pointer
it throws, and nothing in the routine catches, so the exception escapes to
the caller (the error case of Except). -/
def ParseCsoPointer (all : List Tk) (b e : Nat) :
    Except String ParsingResult :=
  if find_forward all b [.apointer_, .open_frame, .alnumus, .close_frame] then
    .ok (mkSuccess
      ((Node.mk (.tk_ .apointer_) [] []).pushB (to_statement all (b + 2)))
      (b + 4))
  else if find_forward all b [.apointer_, .open_frame] then do
    let r ← ParseCandiSpecialObjectF all (all.length + 2) (b + 2) e
    if r.valid then
      .ok (mkSuccess
        ((Node.mk (.tk_ .apointer_) [] []).pushB r.node) (r.it + 1))
    else
      .error "ParseCsoPointer: Invalid CSO Type in the pointer type constraint."
  else .error "ParseCsoPointer: Pointer must be contrained to a type."

/-- load_file_to_char8_vector of libcsl.hpp (lines 34 to 67), on the byte
content of a readable file (file system access and the unreadable file
exception path are outside the embedding).  An empty file gives an empty
buffer; otherwise the bytes are copied and a NUL byte is appended exactly
when the content does not already end in NUL. -/
def load_file_to_char8_vector (data : List Nat) : List Nat :=
  match data with
  | [] => []
  | x :: xs =>
    if (x :: xs).getLastD 0 ≠ 0 then (x :: xs) ++ [0] else x :: xs

/-- Leaf node for a single token, the shape produced by to_statement on an
in range position. -/
def leaf (t : TkType) (s : String) : Node :=
  .mk (.tk_ t) [⟨t, s⟩] []

/-- Token list of the expression 1 + 1 * 1. -/
def c1aToks : List Tk :=
  [⟨.number_literal, "1"⟩, ⟨.addition, "+"⟩, ⟨.number_literal, "1"⟩,
   ⟨.multiplication, "*"⟩, ⟨.number_literal, "1"⟩]

/-- Token list of the expression ( 1 + 1 ) * 1. -/
def c1bToks : List Tk :=
  [⟨.open_scope, "("⟩, ⟨.number_literal, "1"⟩, ⟨.addition, "+"⟩,
   ⟨.number_literal, "1"⟩, ⟨.close_scope, ")"⟩, ⟨.multiplication, "*"⟩,
   ⟨.number_literal, "1"⟩]

/-- Token list of the expression a = b = c. -/
def c2aToks : List Tk :=
  [⟨.alnumus, "a"⟩, ⟨.simple_assignment, "="⟩, ⟨.alnumus, "b"⟩,
   ⟨.simple_assignment, "="⟩, ⟨.alnumus, "c"⟩]

/-- Token list of the expression a + b - c. -/
def c2bToks : List Tk :=
  [⟨.alnumus, "a"⟩, ⟨.addition, "+"⟩, ⟨.alnumus, "b"⟩,
   ⟨.subtraction, "-"⟩, ⟨.alnumus, "c"⟩]

/-- Token list of the expression foo . bar ( ). -/
def c4aToks : List Tk :=
  [⟨.alnumus, "foo"⟩, ⟨.period, "."⟩, ⟨.alnumus, "bar"⟩,
   ⟨.open_scope, "("⟩, ⟨.close_scope, ")"⟩]

/-- Token list of the expression a . b ( ) . c. -/
def c4bToks : List Tk :=
  [⟨.alnumus, "a"⟩, ⟨.period, "."⟩, ⟨.alnumus, "b"⟩, ⟨.open_scope, "("⟩,
   ⟨.close_scope, ")"⟩, ⟨.period, "."⟩, ⟨.alnumus, "c"⟩]

/-- Token list of the statement a ! b ; followed by eof: a negation token in
binary operator position. -/
def c3Toks : List Tk :=
  [⟨.alnumus, "a"⟩, ⟨.negation, "!"⟩, ⟨.alnumus, "b"⟩, ⟨.eos, ";"⟩,
   ⟨.eof, ""⟩]

/-- Token list of the malformed statement 1 + ( 2 ; with an unclosed
parenthesis. -/
def c5MismatchToks : List Tk :=
  [⟨.number_literal, "1"⟩, ⟨.addition, "+"⟩, ⟨.open_scope, "("⟩,
   ⟨.number_literal, "2"⟩, ⟨.eos, ";"⟩, ⟨.eof, ""⟩]

/-- Token list of the statement ( ) ; an empty bracket pair as the whole
expression. -/
def c5EmptyToks : List Tk :=
  [⟨.open_scope, "("⟩, ⟨.close_scope, ")"⟩, ⟨.eos, ";"⟩, ⟨.eof, ""⟩]

/-- Token list of the statement 1 + ( ) ; an empty bracket pair in operand
position. -/
def c5EmptyOperandToks : List Tk :=
  [⟨.number_literal, "1"⟩, ⟨.addition, "+"⟩, ⟨.open_scope, "("⟩,
   ⟨.close_scope, ")"⟩, ⟨.eos, ";"⟩, ⟨.eof, ""⟩]

/-- Token list of the statement * ; a lone binary operator with no operand
at all. -/
def c5LoneBinToks : List Tk :=
  [⟨.multiplication, "*"⟩, ⟨.eos, ";"⟩, ⟨.eof, ""⟩]

/-- Token list of the statement ! ; a lone unary operator at end of input
with no operand. -/
def c5LoneUnaryToks : List Tk :=
  [⟨.negation, "!"⟩, ⟨.eos, ";"⟩, ⟨.eof, ""⟩]

/-- The binary operator token kinds of the precedence table. -/
def binaryOpKinds : List TkType :=
  [.simple_assignment, .addition_assignment, .subtraction_assignment,
   .multiplication_assignment, .division_assignment, .remainder_assignment,
   .logical_or, .logical_and, .equal_to, .not_equal, .less_than, .less_equal,
   .greater_than, .greater_equal, .addition, .subtraction, .multiplication,
   .division, .remainder, .period]

/-- Token list of the unconstrained pointer sigil statement. -/
def c6PointerToks : List Tk :=
  [⟨.apointer_, "&pointer"⟩, ⟨.alnumus, "x"⟩, ⟨.eos, ";"⟩, ⟨.eof, ""⟩]

/-- Token list of the statement var foo = 1 + c * ( 3 / 4 ) ; eof, with the
var keyword in directive form. -/
def c7Toks : List Tk :=
  [⟨.var_, "#var"⟩, ⟨.alnumus, "foo"⟩, ⟨.simple_assignment, "="⟩,
   ⟨.number_literal, "1"⟩, ⟨.addition, "+"⟩, ⟨.alnumus, "c"⟩,
   ⟨.multiplication, "*"⟩, ⟨.open_scope, "("⟩, ⟨.number_literal, "3"⟩,
   ⟨.division, "/"⟩, ⟨.number_literal, "4"⟩, ⟨.close_scope, ")"⟩,
   ⟨.eos, ";"⟩, ⟨.eof, ""⟩]

/-- The expression tree 1 + c * ( 3 / 4 ) as the builder produces it. -/
def c7InnerExpr : Node :=
  .mk (.tk_ .addition) [⟨.addition, "+"⟩]
    [leaf .number_literal "1",
     .mk (.tk_ .multiplication) [⟨.multiplication, "*"⟩]
       [leaf .alnumus "c",
        .mk (.tk_ .division) [⟨.division, "/"⟩]
          [leaf .number_literal "3", leaf .number_literal "4"]]]

/-- The node ParseDirectiveVar actually builds for c7Toks: the second child
is the assignment tree built from foo = 1 + c * ( 3 / 4 ), with the
initialiser expression pushed to the front of the name. -/
def c7ActualNode : Node :=
  .mk .anon_variable_definition_assingment_ (sliceToks c7Toks 0 12)
    [.mk (.tk_ .alnumus) [⟨.alnumus, "foo"⟩] [],
     .mk (.tk_ .simple_assignment) [⟨.simple_assignment, "="⟩]
       [c7InnerExpr, leaf .alnumus "foo"]]

/-- Token list of the functional block x = 1 ; return a ; var b ; with the
keywords in directive form. -/
def c8BlockToks : List Tk :=
  [⟨.alnumus, "x"⟩, ⟨.simple_assignment, "="⟩, ⟨.number_literal, "1"⟩,
   ⟨.eos, ";"⟩, ⟨.return_, "#return"⟩, ⟨.alnumus, "a"⟩, ⟨.eos, ";"⟩,
   ⟨.var_, "#var"⟩, ⟨.alnumus, "b"⟩, ⟨.eos, ";"⟩]

/-- The functional block node actually built for c8BlockToks: one child per
statement. -/
def c8BlockNode : Node :=
  .mk .functional_block_ (sliceToks c8BlockToks 0 10)
    [.mk .variable_assignment_ (sliceToks c8BlockToks 0 3)
       [leaf .alnumus "x", leaf .simple_assignment "=",
        leaf .number_literal "1"],
     .mk .return_ (sliceToks c8BlockToks 4 6)
       [.mk .expression_ (sliceToks c8BlockToks 5 6) [leaf .alnumus "a"]],
     .mk .anon_variable_definition_ (sliceToks c8BlockToks 7 10)
       [leaf .alnumus "b"]]

/-- The statement keywords the claim lists that ParseFunctionalBlock does
not dispatch on. -/
def c8RejectedKinds : List TkType :=
  [.if_, .elif_, .else_, .while_, .for_, .on_, .break_, .continue_, .print_]

/-- ParseFunctionalBlock applied to a block led by the given keyword returns
an error result (valid false) rather than succeeding. -/
def fbRejects (k : TkType) : Bool :=
  match ParseFunctionalBlock [⟨k, ""⟩, ⟨.eos, ";"⟩] 0 2 with
  | .ok r => !r.valid
  | .error _ => false

/-- Token list of the constrained sigil aint [ - 42 ... 42 ]. -/
def c9IntNegToks : List Tk :=
  [⟨.aint_, "&int"⟩, ⟨.open_frame, "["⟩, ⟨.subtraction, "-"⟩,
   ⟨.number_literal, "42"⟩, ⟨.ellipsis, "..."⟩, ⟨.number_literal, "42"⟩,
   ⟨.close_frame, "]"⟩]

/-- Token list of the constrained sigil aint [ 1 ... 2 ]. -/
def c9IntPosToks : List Tk :=
  [⟨.aint_, "&int"⟩, ⟨.open_frame, "["⟩, ⟨.number_literal, "1"⟩,
   ⟨.ellipsis, "..."⟩, ⟨.number_literal, "2"⟩, ⟨.close_frame, "]"⟩]

/-- Token list of the constrained sigil auint [ 1 ... 2 ]. -/
def c9UintPosToks : List Tk :=
  [⟨.auint_, "&uint"⟩, ⟨.open_frame, "["⟩, ⟨.number_literal, "1"⟩,
   ⟨.ellipsis, "..."⟩, ⟨.number_literal, "2"⟩, ⟨.close_frame, "]"⟩]

/-- Token list of the sigil auint [ - 1 ... 1 ] with a negated lower
bound. -/
def c9UintNegToks : List Tk :=
  [⟨.auint_, "&uint"⟩, ⟨.open_frame, "["⟩, ⟨.subtraction, "-"⟩,
   ⟨.number_literal, "1"⟩, ⟨.ellipsis, "..."⟩, ⟨.number_literal, "1"⟩,
   ⟨.close_frame, "]"⟩]

/-- C1: build_statement resolves multiplicative operators as binding tighter
than additive operators and parenthesised subexpressions as binding
tightest: the token sequence 1 + 1 * 1 parses to (+ 1 (* 1 1)), and
( 1 + 1 ) * 1 parses to (* (+ 1 1) 1). -/
theorem C1_expression_precedence :
    build_statement c1aToks 0 5 none = .ok
      (.mk (.tk_ .addition) [⟨.addition, "+"⟩]
        [leaf .number_literal "1",
         .mk (.tk_ .multiplication) [⟨.multiplication, "*"⟩]
           [leaf .number_literal "1", leaf .number_literal "1"]])
    ∧ build_statement c1bToks 0 7 none = .ok
      (.mk (.tk_ .multiplication) [⟨.multiplication, "*"⟩]
        [.mk (.tk_ .addition) [⟨.addition, "+"⟩]
           [leaf .number_literal "1", leaf .number_literal "1"],
         leaf .number_literal "1"]) :=
  ⟨rfl, rfl⟩

/-- C2, evaluation at the failing input: the additive chain a + b - c does
parse left associatively to (- (+ a b) c) as claimed, but the assignment
chain a = b = c parses to (= c (= b a)) rather than the claimed right
associative (= a (= b c)): the equal importance comparison takes the branch
that rebuilds the left hand side, and the right associative child swaps
place the leaves in reverse order. -/
theorem C2_assignment_chain_evaluation :
    build_statement c2aToks 0 5 none = .ok
      (.mk (.tk_ .simple_assignment) [⟨.simple_assignment, "="⟩]
        [leaf .alnumus "c",
         .mk (.tk_ .simple_assignment) []
           [leaf .alnumus "b", leaf .alnumus "a"]])
    ∧ build_statement c2bToks 0 5 none = .ok
      (.mk (.tk_ .subtraction) [⟨.subtraction, "-"⟩]
        [.mk (.tk_ .addition) [] [leaf .alnumus "a", leaf .alnumus "b"],
         leaf .alnumus "c"]) :=
  ⟨rfl, rfl⟩

/-- C3, evaluation at the failing input: parsing the statement a ! b ;
succeeds and returns an AST whose root is a negation node, a unary operator
kind, with two children, so not every unary operator node of a produced AST
has exactly one child. -/
theorem C3_unary_node_two_children :
    (ParseValueExpression c3Toks 0 5).valid = true
    ∧ (ParseValueExpression c3Toks 0 5).node =
      .mk (.tk_ .negation) [⟨.negation, "!"⟩]
        [leaf .alnumus "b", leaf .alnumus "a"]
    ∧ (ParseValueExpression c3Toks 0 5).node.children.length = 2 :=
  ⟨rfl, rfl, rfl⟩

/-- C4, evaluation at the failing inputs: foo . bar ( ) parses to
(. foo (call bar args)) rather than the claimed (call (. foo bar) args),
because the continuation pass uses only the operand after the period as the
callee; likewise a . b ( ) . c parses to (. (. a (call b args)) c) rather
than (. (call (. a b) args) c).  The call node does have exactly two
children, a callee and an arguments node. -/
theorem C4_function_call_evaluation :
    build_statement c4aToks 0 5 none = .ok
      (.mk (.tk_ .period) [⟨.period, "."⟩]
        [leaf .alnumus "foo",
         .mk .function_call_ (sliceToks c4aToks 1 5)
           [leaf .alnumus "bar", .mk .arguments_ [] []]])
    ∧ build_statement c4bToks 0 7 none = .ok
      (.mk (.tk_ .period) [⟨.period, "."⟩]
        [.mk (.tk_ .period) []
           [leaf .alnumus "a",
            .mk .function_call_ (sliceToks c4bToks 1 5)
              [leaf .alnumus "b", .mk .arguments_ [] []]],
         leaf .alnumus "c"]) :=
  ⟨rfl, rfl⟩

/-- C5, counterexample: the universal claim fails at a lone operator at the
start of the range.  ParseValueExpression returns valid true on * ; (a
binary operator not followed by an operand: the fresh start of
build_statement assumes the first token is a singular operand and returns
the lone operator as a leaf) and on ! ; (a unary operator at end of input:
the unary branch completes the node with the end of statement token as its
operand), instead of failing as claimed for those categories. -/
theorem C5_lone_operator_accepted :
    ParseValueExpression c5LoneBinToks 0 3 =
      ⟨2, leaf .multiplication "*", true, []⟩
    ∧ ParseValueExpression c5LoneUnaryToks 0 3 =
      ⟨2, .mk (.tk_ .negation) [⟨.negation, "!"⟩] [leaf .eos ";"], true, []⟩ :=
  ⟨rfl, rfl⟩

/-- C5, amended: when the offending operator follows an operand, expression
parsing through ParseValueExpression fails with valid false on each
malformed category the claim lists: a mismatched bracket, an empty bracket
pair standing alone or in operand position, any binary operator of the
precedence table after an operand without a following operand, and any
binary operator followed by a unary operator at the end of input; a lone
operator at the start of the range is however accepted (see the
counterexample). -/
theorem C5_malformed_expressions_rejected :
    (ParseValueExpression c5MismatchToks 0 6).valid = false
    ∧ (ParseValueExpression c5EmptyToks 0 4).valid = false
    ∧ (ParseValueExpression c5EmptyOperandToks 0 6).valid = false
    ∧ (binaryOpKinds.all (fun k =>
        !(ParseValueExpression
          [⟨.number_literal, "1"⟩, ⟨k, ""⟩, ⟨.eos, ";"⟩, ⟨.eof, ""⟩]
          0 4).valid)) = true
    ∧ (binaryOpKinds.all (fun k =>
        !(ParseValueExpression
          [⟨.number_literal, "1"⟩, ⟨k, ""⟩, ⟨.negation, "!"⟩, ⟨.eos, ";"⟩,
           ⟨.eof, ""⟩] 0 5).valid)) = true :=
  ⟨rfl, rfl, rfl, rfl, rfl⟩

/-- C6, counterexample: ParseCsoPointer applied to an unconstrained pointer
sigil throws, and the exception escapes the routine to its caller (the error
case of Except models the escaped exception), so not every parsing routine
reports failure by returning. -/
theorem C6_pointer_parser_throws :
    ParseCsoPointer c6PointerToks 0 4 =
      .error "ParseCsoPointer: Pointer must be contrained to a type." :=
  rfl

/-- C6, amended: ParseValueExpression catches every exception of the
expression builder and reports the failure by returning: whenever its result
is not valid, the node kind is invalid and the error stream is populated. -/
theorem C6_value_expression_reports_by_returning :
    ∀ (all : List Tk) (b e : Nat),
      (ParseValueExpression all b e).valid = false →
      (ParseValueExpression all b e).node.ty = NodeType.invalid_
      ∧ (ParseValueExpression all b e).errs ≠ [] := by
  intro all b e
  unfold ParseValueExpression
  split
  · intro _
    exact ⟨rfl, by simp [mkError]⟩
  · intro h
    simp [mkSuccess] at h

/-- C6, witness: the amended statement applied at the rejected empty bracket
statement. -/
theorem C6_value_expression_reports_by_returning_witness :
    (ParseValueExpression c5EmptyToks 0 4).node.ty = NodeType.invalid_
    ∧ (ParseValueExpression c5EmptyToks 0 4).errs ≠ [] :=
  C6_value_expression_reports_by_returning c5EmptyToks 0 4 rfl

/-- C7, counterexample: in the node ParseDirectiveVar returns for
var foo = 1 + c * ( 3 / 4 ) ; the second child is rooted at a simple
assignment node, not at the claimed addition tree. -/
theorem C7_initialiser_child_not_addition :
    ((ParseDirectiveVar c7Toks 0 14).node.children.getD 1 default).ty
      = NodeType.tk_ .simple_assignment
    ∧ ((ParseDirectiveVar c7Toks 0 14).node.children.getD 1 default).ty
      ≠ NodeType.tk_ .addition :=
  ⟨rfl, by decide⟩

/-- C7, amended: parsing var foo = 1 + c * ( 3 / 4 ) ; with
ParseDirectiveVar succeeds and yields an anon variable definition assignment
node with exactly two children: an alnumus leaf for foo, and the assignment
tree (= (+ 1 (* c (/ 3 4))) foo) that the expression builder returns for the
range starting at the name (the initialiser expression is pushed to the
front, before the name leaf). -/
theorem C7_var_directive_actual_shape :
    ParseDirectiveVar c7Toks 0 14 = ⟨13, c7ActualNode, true, []⟩ :=
  rfl

/-- C8, counterexample: at functional block level a statement led by the if
keyword is not accepted: ParseFunctionalBlock returns an error result. -/
theorem C8_functional_block_rejects_if :
    ParseFunctionalBlock [⟨.if_, "#if"⟩, ⟨.eos, ";"⟩] 0 2 =
      .ok ⟨0, .mk .invalid_ [] [], false,
        ["ParsePragmaticBlock: Invalid statement."]⟩ :=
  rfl

/-- C8, amended: ParseFunctionalBlock dispatches only on identifier led,
return led and var led statements, appending one child per statement; every
other leading keyword the claim lists (if, elif, else, while, for, on,
break, continue, print) yields an error result. -/
theorem C8_functional_block_accepted_forms :
    ParseFunctionalBlock c8BlockToks 0 10 = .ok ⟨10, c8BlockNode, true, []⟩
    ∧ c8BlockNode.children.length = 3
    ∧ (c8RejectedKinds.all fbRejects) = true :=
  ⟨rfl, rfl, rfl⟩

/-- C9, counterexample: ParseCsoUint on auint [ - 1 ... 1 ] does not parse
the bracketed constraint at all: it succeeds with a bare sigil node without
children and consumes only the sigil token, so a negated bound is not
accepted the same way as for aint. -/
theorem C9_uint_negative_bound_not_constrained :
    (ParseCsoUint c9UintNegToks 0 7).node.children = []
    ∧ (ParseCsoUint c9UintNegToks 0 7).it = 1
    ∧ (ParseCsoUint c9UintNegToks 0 7).valid = true :=
  ⟨rfl, rfl, rfl⟩

/-- C9, amended: for aint a bracketed range constraint with an optional
unary minus on either bound is parsed into a sigil node whose children are
the bounds; for auint only a constraint with plain number bounds is parsed
that way, and a negated bound leaves the constraint unparsed, returning the
bare sigil node with the cursor after the sigil token. -/
theorem C9_range_constraints_actual :
    ParseCsoInt c9IntNegToks 0 7 = ⟨7,
      .mk (.tk_ .aint_) []
        [.mk (.tk_ .subtraction) [⟨.subtraction, "-"⟩]
           [leaf .number_literal "42"],
         leaf .number_literal "42"], true, []⟩
    ∧ ParseCsoInt c9IntPosToks 0 6 = ⟨6,
      .mk (.tk_ .aint_) []
        [leaf .number_literal "1", leaf .number_literal "2"], true, []⟩
    ∧ ParseCsoUint c9UintPosToks 0 6 = ⟨6,
      .mk (.tk_ .auint_) []
        [leaf .number_literal "1", leaf .number_literal "2"], true, []⟩
    ∧ ParseCsoUint c9UintNegToks 0 7 =
      ⟨1, .mk (.tk_ .auint_) [] [], true, []⟩ :=
  ⟨rfl, rfl, rfl, rfl⟩

/-- C10: for every file content, load_file_to_char8_vector returns the empty
buffer when the content is empty, and otherwise a buffer whose last element
is the NUL byte (appended exactly when the content does not already end in
NUL). -/
theorem C10_loaded_buffer_nul_convention :
    ∀ (data : List Nat),
      (data = [] → load_file_to_char8_vector data = [])
      ∧ (data ≠ [] →
          (load_file_to_char8_vector data).getLast? = some 0) := by
  intro data
  constructor
  · intro h
    subst h
    rfl
  · intro h
    match data, h with
    | x :: xs, _ =>
      show (if (x :: xs).getLastD 0 ≠ 0 then (x :: xs) ++ [0]
        else x :: xs).getLast? = some 0
      by_cases h0 : (x :: xs).getLastD 0 = 0
      · rw [if_neg (not_not_intro h0)]
        obtain ⟨y, hy⟩ : ∃ y, (x :: xs).getLast? = some y := by
          cases hcl : (x :: xs).getLast? with
          | none =>
            exact absurd (List.getLast?_eq_none_iff.mp hcl) (by simp)
          | some y => exact ⟨y, rfl⟩
        have h1 : y = 0 := by
          have h2 := List.getLastD_eq_getLast? 0 (x :: xs)
          rw [hy] at h2
          rw [h0] at h2
          simpa using h2.symm
        rw [hy, h1]
      · rw [if_pos h0]
        exact List.getLast?_concat _

/-- C10, witness: the statement applied at an empty content and at a two
byte content not ending in NUL. -/
theorem C10_loaded_buffer_nul_convention_witness :
    load_file_to_char8_vector [] = []
    ∧ (load_file_to_char8_vector [72, 105]).getLast? = some 0 :=
  ⟨(C10_loaded_buffer_nul_convention []).1 rfl,
   (C10_loaded_buffer_nul_convention [72, 105]).2 (by simp)⟩

end Caoco
